import Mathlib

/-!
Verification of the `mindsdb hacktoberfest/biochem-moa-agent` repository.

The repository consists of thirteen docstring-only Python modules, the
package initializer `mcp_server/__init__.py`, and one script
`scripts/load_pathways.py`. This file gives a shallow embedding of that
code: the runtime values, the `PathwayLoader` class whose method bodies are
all `pass`, the `main()` entry point with its argparse surface and
environment lookups, a statement-kind table of each file, and an import
semantics for the docstring-only modules. Theorems about the embedding
settle the specification claims.
-/

set_option linter.unusedVariables false

/-- Python runtime values that the embedded code can produce or consume.
The one dictionary type the source ever names is `Dict[str, int]` (the
return annotation of `validate_data`), so that is the dict payload. -/
inductive PyValue where
  | none
  | int (n : Int)
  | str (s : String)
  | bool (b : Bool)
  | dict (entries : List (String × Int))
deriving DecidableEq, Repr

/-- Python exceptions raised by the embedded code. -/
inductive PyError where
  | typeError (msg : String)
deriving DecidableEq, Repr

/-- Observable events of a run of `main()`: `logger.info` lines and
method invocations on the `PathwayLoader` object (with argument values). -/
inductive Effect where
  | logInfo (msg : String)
  | call (method : String) (args : List PyValue)
deriving DecidableEq, Repr

/-- The `PathwayLoader` object. Its `__init__` body is `pass`, so an
instance carries no attributes at all. -/
inductive PathwayLoader where
  | mk
deriving DecidableEq, Repr

/-- The `PathwayData` dataclass of `load_pathways.py`, lines 71-81:
a `@dataclass` with eight typed fields. `Dict[str, str]` is embedded as an
association list. -/
structure PathwayData where
  pathway_id : String
  name : String
  description : String
  organism : String
  category : String
  proteins : List String
  metabolites : List String
  regulations : List (List (String × String))
deriving DecidableEq, Repr

/-- Body of `PathwayLoader.__init__` (docstring, then `pass`): returns
`None`, performs nothing. -/
def PathwayLoader.initBody (self : PathwayLoader) (neo4j_uri neo4j_user neo4j_password : String) :
    PyValue × List Effect :=
  (PyValue.none, [])

/-- Body of `PathwayLoader.load_kegg_pathways` (docstring, then `pass`),
annotated `-> int` in the source but returning `None`. -/
def PathwayLoader.load_kegg_pathways (self : PathwayLoader) (organism : String) (limit : Option Int) :
    PyValue × List Effect :=
  (PyValue.none, [])

/-- Body of `PathwayLoader.load_reactome_pathways` (docstring, then `pass`),
annotated `-> int` in the source but returning `None`. -/
def PathwayLoader.load_reactome_pathways (self : PathwayLoader) (species : String) (limit : Option Int) :
    PyValue × List Effect :=
  (PyValue.none, [])

/-- Body of `PathwayLoader.load_wikipathways` (docstring, then `pass`),
annotated `-> int` in the source but returning `None`. -/
def PathwayLoader.load_wikipathways (self : PathwayLoader) (organism : String) (limit : Option Int) :
    PyValue × List Effect :=
  (PyValue.none, [])

/-- Body of `PathwayLoader.create_pathway_node` (docstring, then `pass`). -/
def PathwayLoader.create_pathway_node (self : PathwayLoader) (pathway : PathwayData) :
    PyValue × List Effect :=
  (PyValue.none, [])

/-- Body of `PathwayLoader.create_protein_nodes` (docstring, then `pass`). -/
def PathwayLoader.create_protein_nodes (self : PathwayLoader) (proteins : List String) :
    PyValue × List Effect :=
  (PyValue.none, [])

/-- Body of `PathwayLoader.create_relationships` (docstring, then `pass`). -/
def PathwayLoader.create_relationships (self : PathwayLoader) (pathway : PathwayData) :
    PyValue × List Effect :=
  (PyValue.none, [])

/-- Body of `PathwayLoader.update_indexes` (docstring, then `pass`). -/
def PathwayLoader.update_indexes (self : PathwayLoader) : PyValue × List Effect :=
  (PyValue.none, [])

/-- Body of `PathwayLoader.validate_data` (docstring, then `pass`),
annotated `-> Dict[str, int]` in the source but returning `None`. -/
def PathwayLoader.validate_data (self : PathwayLoader) : PyValue × List Effect :=
  (PyValue.none, [])

/-- Python semantics of `a += v` where `a` is an `int`: succeeds on `int`
and `bool` operands and raises `TypeError` otherwise, with the message
CPython produces. -/
def pyIAddInt (a : Int) (v : PyValue) : Except PyError Int :=
  match v with
  | PyValue.int n => Except.ok (a + n)
  | PyValue.bool b => Except.ok (a + (if b then 1 else 0))
  | PyValue.none =>
      Except.error (PyError.typeError "unsupported operand type(s) for +=: \x27int\x27 and \x27NoneType\x27")
  | PyValue.str _ =>
      Except.error (PyError.typeError "unsupported operand type(s) for +=: \x27int\x27 and \x27str\x27")
  | PyValue.dict _ =>
      Except.error (PyError.typeError "unsupported operand type(s) for +=: \x27int\x27 and \x27dict\x27")

/-- Rendering of a value inside an f-string, as `str()` would produce. -/
def fstr : PyValue → String
  | PyValue.none => "None"
  | PyValue.int n => toString n
  | PyValue.str s => s
  | PyValue.bool b => if b then "True" else "False"
  | PyValue.dict _ => "dict"

/-- Compact rendering of `json.dumps` for the embedded value grammar
(reached only on the summary path; the `indent=2` layout is elided). -/
def jsonDumps : PyValue → String
  | PyValue.none => "null"
  | PyValue.int n => toString n
  | PyValue.str s => "\x22" ++ s ++ "\x22"
  | PyValue.bool b => if b then "true" else "false"
  | PyValue.dict entries =>
      "\x7b" ++ String.intercalate ", "
        (entries.map (fun kv => "\x22" ++ kv.1 ++ "\x22: " ++ toString kv.2)) ++ "\x7d"

/-- The `--source` choice set of the argument parser. -/
inductive SourceChoice where
  | kegg
  | reactome
  | wiki
  | all
deriving DecidableEq, Repr

/-- The parsed command-line arguments of `load_pathways.py`. -/
structure Args where
  source : SourceChoice
  organism : String
  limit : Option Int
  update : Bool
deriving DecidableEq, Repr

/-- Argparse validation of a `--source` value against
`choices=[kegg, reactome, wiki, all]` (line 179 of the source). -/
def parseSourceChoice (s : String) : Option SourceChoice :=
  if s = "kegg" then Option.some SourceChoice.kegg
  else if s = "reactome" then Option.some SourceChoice.reactome
  else if s = "wiki" then Option.some SourceChoice.wiki
  else if s = "all" then Option.some SourceChoice.all
  else Option.none

/-- The `os.getenv(name, fallback)` lookup used by `main()`. -/
def getenvOr (env : String → Option String) (name fallback : String) : String :=
  match env name with
  | Option.some v => v
  | Option.none => fallback

/-- The KEGG organism argument computed in `main()`:
`organism=\x27hsa\x27 if args.organism == \x27human\x27 else args.organism`. -/
def keggOrganismArg (organism : String) : String :=
  if organism = "human" then "hsa" else organism

/-- The Reactome species argument computed in `main()`:
`species=\x27Homo sapiens\x27 if args.organism == \x27human\x27 else args.organism`. -/
def reactomeSpeciesArg (organism : String) : String :=
  if organism = "human" then "Homo sapiens" else organism

/-- The WikiPathways organism argument computed in `main()`:
`organism=\x27Homo sapiens\x27 if args.organism == \x27human\x27 else args.organism`. -/
def wikiOrganismArg (organism : String) : String :=
  if organism = "human" then "Homo sapiens" else organism

/-- Embedding of an `args.limit` value as the Python value passed on. -/
def limitVal : Option Int → PyValue
  | Option.none => PyValue.none
  | Option.some n => PyValue.int n

/-- The summary message of `main()`'s final `logger.info` f-string. -/
def summaryText (total_loaded : Int) (stats : PyValue) : String :=
  "\n    ========================================\n    Pathway Data Load Complete\n    ========================================\n    Total pathways loaded: " ++
    toString total_loaded ++ "\n    Validation statistics: " ++ jsonDumps stats ++
    "\n    ========================================\n    "

/-- Embedding of `main()` from `load_pathways.py` (lines 176-244), after
argument parsing: environment lookups, loader construction, the three
source branches with their `total_loaded += count` accumulations, index
update, validation, and summary. The result is the trace of observable
effects together with normal termination or the propagated exception. -/
def mainRun (args : Args) (env : String → Option String) :
    List Effect × Except PyError Unit :=
  let neo4j_uri := getenvOr env "NEO4J_URI" "bolt://localhost:7687"
  let neo4j_user := getenvOr env "NEO4J_USER" "neo4j"
  let neo4j_password := getenvOr env "NEO4J_PASSWORD" "password123"
  let loader := PathwayLoader.mk
  let i := PathwayLoader.initBody loader neo4j_uri neo4j_user neo4j_password
  let t0 := [Effect.call "PathwayLoader.__init__"
    [PyValue.str neo4j_uri, PyValue.str neo4j_user, PyValue.str neo4j_password]] ++ i.2
  let total_loaded : Int := 0
  let step1 :=
    if args.source = SourceChoice.kegg ∨ args.source = SourceChoice.all then
      let t := t0 ++ [Effect.logInfo "Loading KEGG pathways..."]
      let org := keggOrganismArg args.organism
      let r := PathwayLoader.load_kegg_pathways loader org args.limit
      let t := t ++ [Effect.call "load_kegg_pathways" [PyValue.str org, limitVal args.limit]] ++ r.2
      match pyIAddInt total_loaded r.1 with
      | Except.error e => (t, Except.error e)
      | Except.ok tot =>
          (t ++ [Effect.logInfo ("Loaded " ++ fstr r.1 ++ " KEGG pathways")], Except.ok tot)
    else
      (t0, Except.ok total_loaded)
  match step1 with
  | (t1, Except.error e) => (t1, Except.error e)
  | (t1, Except.ok tot1) =>
    let step2 :=
      if args.source = SourceChoice.reactome ∨ args.source = SourceChoice.all then
        let t := t1 ++ [Effect.logInfo "Loading Reactome pathways..."]
        let org := reactomeSpeciesArg args.organism
        let r := PathwayLoader.load_reactome_pathways loader org args.limit
        let t := t ++ [Effect.call "load_reactome_pathways" [PyValue.str org, limitVal args.limit]] ++ r.2
        match pyIAddInt tot1 r.1 with
        | Except.error e => (t, Except.error e)
        | Except.ok tot =>
            (t ++ [Effect.logInfo ("Loaded " ++ fstr r.1 ++ " Reactome pathways")], Except.ok tot)
      else
        (t1, Except.ok tot1)
    match step2 with
    | (t2, Except.error e) => (t2, Except.error e)
    | (t2, Except.ok tot2) =>
      let step3 :=
        if args.source = SourceChoice.wiki ∨ args.source = SourceChoice.all then
          let t := t2 ++ [Effect.logInfo "Loading WikiPathways..."]
          let org := wikiOrganismArg args.organism
          let r := PathwayLoader.load_wikipathways loader org args.limit
          let t := t ++ [Effect.call "load_wikipathways" [PyValue.str org, limitVal args.limit]] ++ r.2
          match pyIAddInt tot2 r.1 with
          | Except.error e => (t, Except.error e)
          | Except.ok tot =>
              (t ++ [Effect.logInfo ("Loaded " ++ fstr r.1 ++ " WikiPathways")], Except.ok tot)
        else
          (t2, Except.ok tot2)
      match step3 with
      | (t3, Except.error e) => (t3, Except.error e)
      | (t3, Except.ok tot3) =>
        let t4 := t3 ++ [Effect.logInfo "Updating search indexes..."]
        let rU := PathwayLoader.update_indexes loader
        let t4 := t4 ++ [Effect.call "update_indexes" []] ++ rU.2
        let t5 := t4 ++ [Effect.logInfo "Validating loaded data..."]
        let rV := PathwayLoader.validate_data loader
        let t5 := t5 ++ [Effect.call "validate_data" []] ++ rV.2
        (t5 ++ [Effect.logInfo (summaryText tot3 rV.1)], Except.ok Unit.unit)

/-- The method names invoked on a trace, in order. -/
def traceCallNames (t : List Effect) : List String :=
  t.filterMap (fun e =>
    match e with
    | Effect.call m _ => Option.some m
    | _ => Option.none)

/-- The `logger.info` messages of a trace, in order. -/
def traceLogMsgs (t : List Effect) : List String :=
  t.filterMap (fun e =>
    match e with
    | Effect.logInfo m => Option.some m
    | _ => Option.none)

/-- The loader method that the first executed branch of `main()` invokes
for each `--source` value. -/
def firstLoaderName : SourceChoice → String
  | SourceChoice.kegg => "load_kegg_pathways"
  | SourceChoice.all => "load_kegg_pathways"
  | SourceChoice.reactome => "load_reactome_pathways"
  | SourceChoice.wiki => "load_wikipathways"

/-- The log line that the first executed branch of `main()` emits for each
`--source` value. -/
def firstLoaderLogMsg : SourceChoice → String
  | SourceChoice.kegg => "Loading KEGG pathways..."
  | SourceChoice.all => "Loading KEGG pathways..."
  | SourceChoice.reactome => "Loading Reactome pathways..."
  | SourceChoice.wiki => "Loading WikiPathways..."

/-- The organism value that the first executed branch of `main()` passes. -/
def firstLoaderOrgArg : SourceChoice → String → String
  | SourceChoice.kegg, o => keggOrganismArg o
  | SourceChoice.all, o => keggOrganismArg o
  | SourceChoice.reactome, o => reactomeSpeciesArg o
  | SourceChoice.wiki, o => wikiOrganismArg o

/-- The `TypeError` raised by `total_loaded += count` when a loader
returned `None`. -/
def accumulateNoneError : PyError :=
  PyError.typeError "unsupported operand type(s) for +=: \x27int\x27 and \x27NoneType\x27"

/-- An argument declaration of the argparse parser in `main()`:
the flag, the `choices` list if one is given, the explicit `default` if one
is given, whether `type=int` is set, and whether `action=store_true` is
set. -/
structure ArgSpec where
  flag : String
  choices : Option (List String)
  defaultVal : Option PyValue
  typeIsInt : Bool
  storeTrue : Bool
deriving DecidableEq, Repr

/-- The four `parser.add_argument` declarations of `main()`
(lines 178-188 of `load_pathways.py`), in source order. -/
def loadPathwaysParserArgs : List ArgSpec :=
  [ArgSpec.mk "--source" (Option.some ["kegg", "reactome", "wiki", "all"])
     (Option.some (PyValue.str "all")) false false,
   ArgSpec.mk "--organism" Option.none (Option.some (PyValue.str "human")) false false,
   ArgSpec.mk "--limit" Option.none Option.none true false,
   ArgSpec.mk "--update" Option.none Option.none false true]

/-- The parser surface as claim C3 of the specification words it: exactly
`--source` with choices kegg, reactome, wiki, all and default all;
`--organism` with default human; `--limit` as an optional int defaulting
to None; and `--update` as a boolean flag. Spec-side definition for the
refinement comparison against `loadPathwaysParserArgs`. -/
def loadPathwaysParserArgsSpec : List ArgSpec :=
  [ArgSpec.mk "--source" (Option.some ["kegg", "reactome", "wiki", "all"])
     (Option.some (PyValue.str "all")) false false,
   ArgSpec.mk "--organism" Option.none (Option.some (PyValue.str "human")) false false,
   ArgSpec.mk "--limit" Option.none Option.none true false,
   ArgSpec.mk "--update" Option.none Option.none false true]

/-- Argparse default semantics: an explicit `default` wins; otherwise a
`store_true` flag defaults to `False` and every other argument to `None`. -/
def argparseDefault (a : ArgSpec) : PyValue :=
  match a.defaultVal with
  | Option.some v => v
  | Option.none => if a.storeTrue then PyValue.bool false else PyValue.none

/-- The environment variables `main()` reads and their fallbacks
(lines 191-193 of the source). -/
def neo4jEnvDefaults : List (String × String) :=
  [("NEO4J_URI", "bolt://localhost:7687"),
   ("NEO4J_USER", "neo4j"),
   ("NEO4J_PASSWORD", "password123")]

/-- The environment surface as claim C3 of the specification words it:
exactly `NEO4J_URI`, `NEO4J_USER`, `NEO4J_PASSWORD` with fallbacks
`bolt://localhost:7687`, `neo4j`, `password123`. Spec-side definition for
the refinement comparison against `neo4jEnvDefaults`. -/
def neo4jEnvDefaultsSpec : List (String × String) :=
  [("NEO4J_URI", "bolt://localhost:7687"),
   ("NEO4J_USER", "neo4j"),
   ("NEO4J_PASSWORD", "password123")]

/-- Syntactic kind of a Python statement, used to tabulate every statement
node of `load_pathways.py`. -/
inductive StmtKind where
  | docstringK
  | importK
  | importFromK
  | exprCallK
  | assignK
  | annAssignK
  | augAssignK
  | ifK
  | passK
  | funcDefK
  | classDefK
  | tryK
  | withK
  | forK
  | whileK
  | returnK
  | raiseK
deriving DecidableEq, Repr

/-- The body every `PathwayLoader` method has in the source: its docstring
followed by a single `pass`. -/
def stubMethodBody : List StmtKind :=
  [StmtKind.docstringK, StmtKind.passK]

/-- A method definition of the `PathwayLoader` class: its name, its return
annotation if the source writes one, and the kinds of its body
statements. -/
structure MethodDef where
  mName : String
  returnAnnot : Option String
  body : List StmtKind
deriving DecidableEq, Repr

/-- The nine methods of `PathwayLoader` (lines 83-174 of the source), in
source order, each with its annotation and its docstring-plus-`pass`
body. -/
def pathwayLoaderMethods : List MethodDef :=
  [MethodDef.mk "__init__" Option.none stubMethodBody,
   MethodDef.mk "load_kegg_pathways" (Option.some "int") stubMethodBody,
   MethodDef.mk "load_reactome_pathways" (Option.some "int") stubMethodBody,
   MethodDef.mk "load_wikipathways" (Option.some "int") stubMethodBody,
   MethodDef.mk "create_pathway_node" (Option.some "None") stubMethodBody,
   MethodDef.mk "create_protein_nodes" (Option.some "None") stubMethodBody,
   MethodDef.mk "create_relationships" (Option.some "None") stubMethodBody,
   MethodDef.mk "update_indexes" (Option.some "None") stubMethodBody,
   MethodDef.mk "validate_data" (Option.some "Dict[str, int]") stubMethodBody]

/-- The statement kinds of the body of `main()` (lines 176-244), in source
order: docstring, parser construction, four `add_argument` calls,
`parse_args`, three `os.getenv` assignments, loader construction,
`total_loaded = 0`, three source branches of the shape
if / log / assign count / `total_loaded += count` / log, then the index
update, validation and summary statements. -/
def mainBodyKinds : List StmtKind :=
  [StmtKind.docstringK,
   StmtKind.assignK,
   StmtKind.exprCallK, StmtKind.exprCallK, StmtKind.exprCallK, StmtKind.exprCallK,
   StmtKind.assignK,
   StmtKind.assignK, StmtKind.assignK, StmtKind.assignK,
   StmtKind.assignK,
   StmtKind.assignK,
   StmtKind.ifK, StmtKind.exprCallK, StmtKind.assignK, StmtKind.augAssignK, StmtKind.exprCallK,
   StmtKind.ifK, StmtKind.exprCallK, StmtKind.assignK, StmtKind.augAssignK, StmtKind.exprCallK,
   StmtKind.ifK, StmtKind.exprCallK, StmtKind.assignK, StmtKind.augAssignK, StmtKind.exprCallK,
   StmtKind.exprCallK,
   StmtKind.exprCallK,
   StmtKind.exprCallK,
   StmtKind.assignK,
   StmtKind.exprCallK]

/-- Every statement node of `load_pathways.py`, flattened in pre-order:
the module docstring, five imports, three from-imports,
`logging.basicConfig`, the `logger` assignment, the `PathwayData`
dataclass (docstring and eight annotated fields), the `PathwayLoader`
class (docstring and nine stub methods), `main()`, and the
`if __name__ == ...: main()` tail. -/
def loadPathwaysAllKinds : List StmtKind :=
  [StmtKind.docstringK,
   StmtKind.importK, StmtKind.importK, StmtKind.importK, StmtKind.importK, StmtKind.importK,
   StmtKind.importFromK, StmtKind.importFromK, StmtKind.importFromK,
   StmtKind.exprCallK,
   StmtKind.assignK,
   StmtKind.classDefK, StmtKind.docstringK,
   StmtKind.annAssignK, StmtKind.annAssignK, StmtKind.annAssignK, StmtKind.annAssignK,
   StmtKind.annAssignK, StmtKind.annAssignK, StmtKind.annAssignK, StmtKind.annAssignK,
   StmtKind.classDefK, StmtKind.docstringK] ++
  (pathwayLoaderMethods.map (fun m => StmtKind.funcDefK :: m.body)).flatten ++
  [StmtKind.funcDefK] ++ mainBodyKinds ++
  [StmtKind.ifK, StmtKind.exprCallK]

/-- A class definition with typed fields, for the dataclass inventory of
the repository. -/
structure ClassFieldsDef where
  cName : String
  fields : List (String × String)
deriving DecidableEq, Repr

/-- The `PathwayData` dataclass declaration, with its eight annotated
fields as the source writes them. -/
def pathwayDataClass : ClassFieldsDef :=
  ClassFieldsDef.mk "PathwayData"
    [("pathway_id", "str"), ("name", "str"), ("description", "str"),
     ("organism", "str"), ("category", "str"), ("proteins", "List[str]"),
     ("metabolites", "List[str]"), ("regulations", "List[Dict[str, str]]")]

/-- All dataclass declarations in the repository: `PathwayData` is the
only class with declared fields (`PathwayLoader` declares none). -/
def repoDataclassDefs : List ClassFieldsDef :=
  [pathwayDataClass]

/-- The attributes of the `Pathway` node as the module docstring's graph
schema documents them (line 27 of the source). -/
def pathwayNodeDocFields : List String :=
  ["kegg_id", "name", "description", "organism", "category"]

/-- A top-level statement of one of the docstring-only or
initializer modules. -/
inductive TopStmt where
  | docstringT (text : String)
  | importFromT (fromModule : String) (names : List String)
  | assignT (lhs : String)
deriving DecidableEq, Repr

/-- A Python module: its import path and top-level statements. For the two
test modules the docstring payload is the verbatim source text; for the
other docstring-only modules it is the docstring's title line, the rest of
the prose being irrelevant to every claim. -/
structure PyModule where
  modName : String
  body : List TopStmt
deriving DecidableEq, Repr

/-- The verbatim module docstring of `tests/test_graph_queries.py`. -/
def tgqDocText : String :=
"\nGraph Query Testing Suite\n=========================\n\nTest suite for validating Cypher queries, graph traversal algorithms,\nand Neo4j database operations in the dietary and nutritional knowledge graph.\n\nTest Focus Areas:\n----------------\n1. Query Correctness:\n   - Cypher syntax validation\n   - Result accuracy verification\n   - Parameter binding safety\n   - Query plan optimization\n\n2. Graph Algorithms:\n   - Shortest path finding\n   - PageRank calculation\n   - Community detection\n   - Centrality measures\n\n3. Performance Testing:\n   - Query execution time\n   - Memory consumption\n   - Index utilization\n   - Connection pooling\n\n4. Data Integrity:\n   - Node/edge consistency\n   - Constraint validation\n   - Transaction isolation\n   - Deadlock prevention\n\nCore Test Queries:\n-----------------\n# Find drug targets\nMATCH (c:Compound \x7bsmiles: $smiles\x7d)-[:BINDS_TO]->(p:Protein)\nRETURN p.uniprot_id, p.name\n\n# Pathway traversal\nMATCH path = (c:Compound)-[:BINDS_TO]->(:Protein)-[:PARTICIPATES_IN*1..3]->(pw:Pathway)\nWHERE c.cid = $cid\nRETURN path\n\n# Target similarity\nMATCH (c1:Compound)-[:BINDS_TO]->(p:Protein)<-[:BINDS_TO]-(c2:Compound)\nWHERE c1.name = $drug_name AND c1 <> c2\nRETURN c2, count(p) as shared_targets\nORDER BY shared_targets DESC\n\n# Pathway crosstalk\nMATCH (pw1:Pathway)<-[:PARTICIPATES_IN]-(p:Protein)-[:PARTICIPATES_IN]->(pw2:Pathway)\nWHERE pw1.id = $pathway1 AND pw2.id = $pathway2\nRETURN p as shared_protein\n\nTest Scenarios:\n--------------\n- Simple pattern matching\n- Multi-hop traversals\n- Aggregation queries\n- Path finding algorithms\n- Subgraph extraction\n- Temporal queries\n- Bulk operations\n\nPerformance Benchmarks:\n----------------------\nQuery Type          | Max Time | Nodes\n--------------------|----------|--------\nSingle hop          | 50ms     | 100\nThree hop traversal | 200ms    | 1000\nShortest path       | 300ms    | 5000\nPageRank (subgraph) | 1s       | 10000\nFull graph scan     | 5s       | 100000\n\nGraph Schema Tests:\n------------------\n- Node labels validation\n- Relationship types check\n- Property constraints\n- Index existence\n- Unique constraints\n- Required properties\n\nData Validation:\n---------------\n- SMILES string format\n- UniProt ID patterns\n- KEGG pathway IDs\n- PubChem CIDs\n- ChEMBL IDs\n- Confidence scores (0-1)\n\nEdge Cases:\n----------\n- Disconnected nodes\n- Circular references\n- Missing properties\n- Null values\n- Empty results\n- Large result sets\n\nSecurity Testing:\n----------------\n- Cypher injection attempts\n- Parameter sanitization\n- Query timeout enforcement\n- Resource limitation\n- Access control\n\nMock Data Setup:\n---------------\n- 1000 test compounds\n- 500 test proteins\n- 100 test pathways\n- 5000 interactions\n- Various confidence levels\n- Multiple evidence types\n\nAssertion Examples:\n------------------\nassert len(results) > 0\nassert all(0 <= r[\x27confidence\x27] <= 1 for r in results)\nassert execution_time < 200  # milliseconds\nassert \x27index\x27 in query_plan\nassert no_cartesian_product(query_plan)\n\nIntegration Points:\n------------------\n- MindsDB knowledge base\n- LightRAG graph engine\n- Memory context store\n- MCP server endpoints\n- Agent decision making\n\nTest Utilities:\n--------------\n- Graph data generators\n- Query builders\n- Result validators\n- Performance profilers\n- Visualization helpers\n"

/-- The verbatim module docstring of `tests/test_mcp_integration.py`. -/
def tmiDocText : String :=
"\nMCP Server Integration Tests\n============================\n\nComprehensive integration test suite for the DietMOA MCP Server,\nvalidating end-to-end functionality of all tools and their interactions.\n\nTest Categories:\n---------------\n1. Tool Registration & Discovery\n2. Request/Response Handling\n3. Multi-tool Workflows\n4. Error Handling & Recovery\n5. Performance & Scalability\n6. Security & Validation\n\nTest Scenarios:\n--------------\n- Single tool invocation\n- Sequential tool chaining\n- Parallel tool execution\n- Memory persistence across sessions\n- Graph traversal operations\n- Knowledge base queries\n- Real-time data streaming\n- Error recovery mechanisms\n\nFixtures & Mocks:\n----------------\n- Sample compound data (aspirin, ibuprofen, etc.)\n- Pathway networks (KEGG snapshots)\n- Protein structures (PDB entries)\n- Mock API responses (PubChem, ChEMBL)\n- Test graph database (Neo4j)\n- Memory store snapshots\n\nTest Classes:\n------------\nTestMCPServer: Core server functionality\nTestPubChemTool: Chemical data retrieval\nTestCypherTool: Graph query execution\nTestMemoryTool: Context management\nTestPathwayTool: Pathway analysis\nTestWorkflow: Multi-tool integration\n\nPerformance Benchmarks:\n----------------------\n- Response time < 2s for simple queries\n- Throughput > 100 requests/minute\n- Memory usage < 1GB under normal load\n- Connection pool efficiency > 90%\n- Cache hit ratio > 70%\n\nSecurity Tests:\n--------------\n- Input validation (SMILES, InChI)\n- Cypher injection prevention\n- API key management\n- Rate limiting enforcement\n- Data privacy compliance\n\nExample Test Cases:\n------------------\ndef test_drug_moa_prediction_workflow():\n    \x27\x27\x27Test complete MoA prediction pipeline\x27\x27\x27\n    # 1. Search compound in PubChem\n    # 2. Retrieve targets from graph\n    # 3. Analyze pathway impacts\n    # 4. Store results in memory\n    # 5. Validate predictions\n    \ndef test_pathway_crosstalk_analysis():\n    \x27\x27\x27Test multi-pathway interaction analysis\x27\x27\x27\n    # 1. Load pathway networks\n    # 2. Execute Cypher traversal\n    # 3. Calculate crosstalk metrics\n    # 4. Visualize results\n    \ndef test_memory_context_retrieval():\n    \x27\x27\x27Test conversation memory management\x27\x27\x27\n    # 1. Store conversation context\n    # 2. Simulate new session\n    # 3. Retrieve relevant memories\n    # 4. Validate context continuity\n\nCoverage Requirements:\n---------------------\n- Line coverage > 80%\n- Branch coverage > 75%\n- Integration coverage > 90%\n- Critical path coverage: 100%\n\nContinuous Integration:\n----------------------\n- Pre-commit hooks\n- GitHub Actions workflow\n- Docker container tests\n- Database migration tests\n- API contract tests\n\nTest Data Management:\n--------------------\n- Fixtures in JSON/YAML\n- Database snapshots\n- Mock service responses\n- Synthetic test data\n- Anonymized real data\n\nDebugging Tools:\n---------------\n- Request/response logging\n- Performance profiling\n- Memory leak detection\n- Network traffic analysis\n- Database query monitoring\n"

/-- `mcp_server/server.py`: a single module docstring, nothing else. -/
def serverModule : PyModule :=
  PyModule.mk "mcp_server.server" [TopStmt.docstringT "MCP Server Implementation"]

/-- `memory/memory_manager.py`: a single module docstring, nothing else. -/
def memoryManagerModule : PyModule :=
  PyModule.mk "memory.memory_manager" [TopStmt.docstringT "Memory Manager with Mem0 Integration"]

/-- `knowledge_base/kb_manager.py`: a single module docstring, nothing else. -/
def kbManagerModule : PyModule :=
  PyModule.mk "knowledge_base.kb_manager" [TopStmt.docstringT "MindsDB Knowledge Base Manager"]

/-- `agents/interaction_mapper.py`: a single module docstring. -/
def interactionMapperModule : PyModule :=
  PyModule.mk "agents.interaction_mapper" [TopStmt.docstringT "Nutrient-Target Interaction Mapper Agent"]

/-- `agents/moa_predictor.py`: a single module docstring. -/
def moaPredictorModule : PyModule :=
  PyModule.mk "agents.moa_predictor" [TopStmt.docstringT "Mechanism of Action (MoA) Predictor Agent"]

/-- `agents/pathway_analyzer.py`: a single module docstring. -/
def pathwayAnalyzerModule : PyModule :=
  PyModule.mk "agents.pathway_analyzer" [TopStmt.docstringT "Pathway Impact Analyzer Agent"]

/-- `graph/neo4j_client.py`: a single module docstring. -/
def neo4jClientModule : PyModule :=
  PyModule.mk "graph.neo4j_client" [TopStmt.docstringT "Neo4j Graph Database Client"]

/-- `mcp_server/tools/cypher_tool.py`: a single module docstring. -/
def cypherToolModule : PyModule :=
  PyModule.mk "mcp_server.tools.cypher_tool" [TopStmt.docstringT "Cypher Query Tool for Graph Database"]

/-- `mcp_server/tools/memory_tool.py`: a single module docstring. -/
def memoryToolModule : PyModule :=
  PyModule.mk "mcp_server.tools.memory_tool" [TopStmt.docstringT "Memory Management Tool with Mem0"]

/-- `mcp_server/tools/pathway_tool.py`: a single module docstring. -/
def pathwayToolModule : PyModule :=
  PyModule.mk "mcp_server.tools.pathway_tool" [TopStmt.docstringT "Metabolic Pathway Analysis Tool"]

/-- `mcp_server/tools/pubchem_tool.py`: a single module docstring. -/
def pubchemToolModule : PyModule :=
  PyModule.mk "mcp_server.tools.pubchem_tool" [TopStmt.docstringT "PubChem Integration Tool"]

/-- `tests/test_graph_queries.py`: a single module docstring, carried
verbatim. -/
def testGraphQueriesModule : PyModule :=
  PyModule.mk "tests.test_graph_queries" [TopStmt.docstringT tgqDocText]

/-- `tests/test_mcp_integration.py`: a single module docstring, carried
verbatim. -/
def testMcpIntegrationModule : PyModule :=
  PyModule.mk "tests.test_mcp_integration" [TopStmt.docstringT tmiDocText]

/-- `mcp_server/__init__.py`: docstring, two from-imports, and the
`__version__` and `__all__` assignments, in source order. -/
def mcpInitModule : PyModule :=
  PyModule.mk "mcp_server"
    [TopStmt.docstringT "DietMOA MCP Server",
     TopStmt.importFromT "mcp_server.server" ["MCPServer"],
     TopStmt.importFromT "mcp_server.handlers" ["DietHandler"],
     TopStmt.assignT "__version__",
     TopStmt.assignT "__all__"]

/-- The thirteen modules of the repository whose entire body is one
docstring. -/
def docstringOnlyModules : List PyModule :=
  [serverModule, memoryManagerModule, kbManagerModule,
   interactionMapperModule, moaPredictorModule, pathwayAnalyzerModule,
   neo4jClientModule, cypherToolModule, memoryToolModule,
   pathwayToolModule, pubchemToolModule,
   testGraphQueriesModule, testMcpIntegrationModule]

/-- Whether a module body is exactly one docstring statement. -/
def isSingleDocstring (m : PyModule) : Bool :=
  match m.body with
  | [TopStmt.docstringT _] => true
  | _ => false

/-- Whether a top-level statement is a from-import. -/
def isImportFromStmt : TopStmt → Bool
  | TopStmt.importFromT _ _ => true
  | _ => false

/-- The names a module body binds when every statement succeeds. -/
def moduleBindings : List TopStmt → List String
  | [] => []
  | TopStmt.docstringT _ :: rest => moduleBindings rest
  | TopStmt.importFromT _ names :: rest => names ++ moduleBindings rest
  | TopStmt.assignT n :: rest => n :: moduleBindings rest

/-- Evaluation of a module body against an availability map from module
paths to their bound names: a docstring binds nothing, a from-import
fails with `ModuleNotFoundError` when the module is absent and with
`ImportError` when the module lacks the requested name, and an assignment
binds its left-hand side. Returns the bound names in binding order. -/
def runTopStmts (avail : String → Option (List String)) :
    List TopStmt → List String → Except String (List String)
  | [], bound => Except.ok bound
  | TopStmt.docstringT _ :: rest, bound => runTopStmts avail rest bound
  | TopStmt.importFromT m names :: rest, bound =>
      (match avail m with
       | Option.none =>
           Except.error ("ModuleNotFoundError: No module named \x27" ++ m ++ "\x27")
       | Option.some attrs =>
           match names.find? (fun n => !(attrs.contains n)) with
           | Option.some bad =>
               Except.error ("ImportError: cannot import name \x27" ++ bad ++
                 "\x27 from \x27" ++ m ++ "\x27")
           | Option.none => runTopStmts avail rest (bound ++ names))
  | TopStmt.assignT n :: rest, bound => runTopStmts avail rest (bound ++ [n])

/-- Importing a module: evaluate its body from an empty binding set. -/
def runModule (avail : String → Option (List String)) (m : PyModule) :
    Except String (List String) :=
  runTopStmts avail m.body []

/-- The availability map of this repository: a docstring-only module
contributes the names it binds (none); `mcp_server.handlers` does not
exist as a file and is absent. -/
def repoAvail (name : String) : Option (List String) :=
  match docstringOnlyModules.find? (fun m => m.modName = name) with
  | Option.some m => Option.some (moduleBindings m.body)
  | Option.none => Option.none

/-- Whether the character list `n` is a prefix of `h`. -/
def charsPrefix : List Char → List Char → Bool
  | [], _ => true
  | _ :: _, [] => false
  | a :: as, b :: bs => a = b && charsPrefix as bs

/-- Whether the character list `n` occurs contiguously inside `h`. -/
def charsOccur (n : List Char) : List Char → Bool
  | [] => charsPrefix n []
  | c :: cs => charsPrefix n (c :: cs) || charsOccur n cs

/-- Whether `needle` occurs as a substring of `hay`. -/
def occursIn (needle hay : String) : Bool :=
  charsOccur needle.data hay.data

deriving instance DecidableEq for Except

/-- Whether a value is a Python `int`. -/
def isIntValue : PyValue → Bool
  | PyValue.int _ => true
  | _ => false

/-- Whether a value is a Python `dict`. -/
def isDictValue : PyValue → Bool
  | PyValue.dict _ => true
  | _ => false

/-- C1: every method of the `PathwayLoader` class is a no-op: for every
choice of arguments it performs no side effect and returns `None`, even
for the three loaders annotated `-> int` and for `validate_data` annotated
`-> Dict[str, int]`. -/
theorem C1_pathwayLoader_methods_are_noops
    (self : PathwayLoader) (uri user pw organism species worg : String)
    (limit : Option Int) (pd : PathwayData) (proteins : List String) :
    PathwayLoader.initBody self uri user pw = (PyValue.none, []) ∧
    PathwayLoader.load_kegg_pathways self organism limit = (PyValue.none, []) ∧
    PathwayLoader.load_reactome_pathways self species limit = (PyValue.none, []) ∧
    PathwayLoader.load_wikipathways self worg limit = (PyValue.none, []) ∧
    PathwayLoader.create_pathway_node self pd = (PyValue.none, []) ∧
    PathwayLoader.create_protein_nodes self proteins = (PyValue.none, []) ∧
    PathwayLoader.create_relationships self pd = (PyValue.none, []) ∧
    PathwayLoader.update_indexes self = (PyValue.none, []) ∧
    PathwayLoader.validate_data self = (PyValue.none, []) ∧
    pathwayLoaderMethods.map MethodDef.returnAnnot =
      [Option.none, Option.some "int", Option.some "int", Option.some "int",
       Option.some "None", Option.some "None", Option.some "None",
       Option.some "None", Option.some "Dict[str, int]"] ∧
    isIntValue (PathwayLoader.load_kegg_pathways self organism limit).1 = false ∧
    isDictValue (PathwayLoader.validate_data self).1 = false :=
  ⟨rfl, rfl, rfl, rfl, rfl, rfl, rfl, rfl, rfl, rfl, rfl, rfl⟩

/-- C2: for every parsed argument combination and every environment,
`main()` raises the `TypeError` of the first `total_loaded += count`
accumulation: the run ends in that error, its only log line is the
"Loading ..." message of the first selected branch (so neither
"Updating search indexes..." nor the summary is ever logged), and its only
method calls are `__init__` and that branch's loader (so `update_indexes`
and `validate_data` are never reached). -/
theorem C2_main_always_raises_typeerror (args : Args) (env : String → Option String) :
    (mainRun args env).2 = Except.error (PyError.typeError
      "unsupported operand type(s) for +=: \x27int\x27 and \x27NoneType\x27") ∧
    traceLogMsgs (mainRun args env).1 = [firstLoaderLogMsg args.source] ∧
    traceCallNames (mainRun args env).1 =
      ["PathwayLoader.__init__", firstLoaderName args.source] := by
  obtain ⟨s, o, l, u⟩ := args
  cases s <;> exact ⟨rfl, rfl, rfl⟩

/-- C3: the external interface of `main()` is exactly the four declared
arguments (with the stated choices and defaults, `--source` rejecting
every string outside its choice set) and the three Neo4j environment
variables with their stated fallbacks, matched against spec-side
definitions written from the claim; the `__init__` call of every run
receives exactly the three resolved environment values. -/
theorem C3_cli_and_env_surface (s : String) (args : Args) (env : String → Option String) :
    loadPathwaysParserArgs = loadPathwaysParserArgsSpec ∧
    neo4jEnvDefaults = neo4jEnvDefaultsSpec ∧
    (parseSourceChoice s).isSome = ["kegg", "reactome", "wiki", "all"].contains s ∧
    loadPathwaysParserArgs.map argparseDefault =
      [PyValue.str "all", PyValue.str "human", PyValue.none, PyValue.bool false] ∧
    (mainRun args env).1.head? = Option.some (Effect.call "PathwayLoader.__init__"
      (neo4jEnvDefaults.map (fun kv => PyValue.str (getenvOr env kv.1 kv.2)))) := by
  refine ⟨rfl, rfl, ?_, rfl, ?_⟩
  · by_cases h1 : s = "kegg" <;> by_cases h2 : s = "reactome" <;>
      by_cases h3 : s = "wiki" <;> by_cases h4 : s = "all" <;>
      simp [parseSourceChoice, h1, h2, h3, h4, List.contains]
  · obtain ⟨src, o, l, u⟩ := args
    cases src <;> rfl

/-- C4 counterexample: the claim that no executable computation exists
anywhere in the repository is false: `main()` computes input-dependent
behavior, so two runs differing only in `--organism` produce different
traces. -/
theorem C4_counterexample :
    mainRun (Args.mk SourceChoice.kegg "human" Option.none false) (fun _ => Option.none) ≠
      mainRun (Args.mk SourceChoice.kegg "rat" Option.none false) (fun _ => Option.none) := by
  decide

/-- C4 as amended: every `PathwayLoader` method body is the
docstring-plus-`pass` stub and every module other than `load_pathways.py`
and `mcp_server/__init__.py` is a single docstring, but `load_pathways.py`
itself contains executable statements (branching and an augmented
assignment in `main()`) whose behavior depends on the input. -/
theorem C4_stub_methods_but_main_computes :
    pathwayLoaderMethods.all (fun m => m.body = stubMethodBody) = true ∧
    docstringOnlyModules.all isSingleDocstring = true ∧
    loadPathwaysAllKinds.contains StmtKind.augAssignK = true ∧
    mainBodyKinds.contains StmtKind.ifK = true ∧
    mainRun (Args.mk SourceChoice.kegg "human" Option.none false) (fun _ => Option.none) ≠
      mainRun (Args.mk SourceChoice.kegg "rat" Option.none false) (fun _ => Option.none) := by
  exact ⟨by decide, by decide, by decide, by decide, by decide⟩

/-- C5 counterexample: the claim that none of the documented data-model
entities is defined as an actual structure is false: the repository
declares the dataclass `PathwayData`, which carries the documented
`Pathway` node attributes (name, description, organism, category) as
typed fields, and `create_pathway_node` is declared to receive it. -/
theorem C5_counterexample :
    repoDataclassDefs.contains pathwayDataClass = true ∧
    ["name", "description", "organism", "category"].all
      (fun f => (pathwayDataClass.fields.map Prod.fst).contains f) = true ∧
    (pathwayLoaderMethods.map MethodDef.mName).contains "create_pathway_node" = true := by
  decide

/-- C5 as amended: the `Pathway` entity is realized in code as the
`PathwayData` dataclass (whose fields include the four non-id attributes
of the documented Pathway node schema); no class named after any other
documented entity exists; and no code manipulates `PathwayData`
instances, since the two methods receiving one are no-ops. -/
theorem C5_pathway_entity_realized_as_dataclass (self : PathwayLoader) (pd : PathwayData) :
    repoDataclassDefs = [pathwayDataClass] ∧
    pathwayNodeDocFields.tail.all
      (fun f => (pathwayDataClass.fields.map Prod.fst).contains f) = true ∧
    repoDataclassDefs.all (fun c =>
      !(["Compound", "Protein", "InteractionNetwork", "MoAPrediction",
         "Memory"].contains c.cName)) = true ∧
    PathwayLoader.create_pathway_node self pd = (PyValue.none, []) ∧
    PathwayLoader.create_relationships self pd = (PyValue.none, []) :=
  ⟨rfl, by decide, by decide, rfl, rfl⟩

/-- C6 counterexample: importing the `mcp_server` package does not
succeed: its initializer's first from-import fails, because
`mcp_server/server.py` binds no name at all and in particular no
`MCPServer`. -/
theorem C6_counterexample :
    runModule repoAvail mcpInitModule =
      Except.error "ImportError: cannot import name \x27MCPServer\x27 from \x27mcp_server.server\x27" := by
  rfl

/-- C6 as amended: `mcp_server/server.py`, `memory/memory_manager.py` and
`knowledge_base/kb_manager.py` are each a single docstring and import
successfully binding nothing; `mcp_server/__init__.py` however contains
two from-imports besides its docstring and `__version__`/`__all__`
assignments, and importing it fails. -/
theorem C6_module_surfaces :
    isSingleDocstring serverModule = true ∧
    isSingleDocstring memoryManagerModule = true ∧
    isSingleDocstring kbManagerModule = true ∧
    runModule repoAvail serverModule = Except.ok [] ∧
    runModule repoAvail memoryManagerModule = Except.ok [] ∧
    runModule repoAvail kbManagerModule = Except.ok [] ∧
    (mcpInitModule.body.filter isImportFromStmt).length = 2 ∧
    (runModule repoAvail mcpInitModule).isOk = false ∧
    moduleBindings mcpInitModule.body =
      ["MCPServer", "DietHandler", "__version__", "__all__"] := by
  exact ⟨rfl, rfl, rfl, rfl, rfl, rfl, rfl, rfl, rfl⟩

set_option maxRecDepth 40000 in
/-- C7: both test files consist solely of a module docstring: evaluating
either defines no test function, fixture or executable assertion (each
binds nothing), while the `def test_...` and `assert` lines are text
inside the respective string literal. -/
theorem C7_test_files_are_docstring_only :
    isSingleDocstring testGraphQueriesModule = true ∧
    isSingleDocstring testMcpIntegrationModule = true ∧
    runModule repoAvail testGraphQueriesModule = Except.ok [] ∧
    runModule repoAvail testMcpIntegrationModule = Except.ok [] ∧
    occursIn "def test_" tmiDocText = true ∧
    occursIn "assert " tgqDocText = true := by
  refine ⟨rfl, rfl, rfl, rfl, ?_, ?_⟩ <;> decide

/-- C8: no error handling exists: `load_pathways.py` contains no
`try`/`except`, `raise` or `with` statement anywhere, the only input
validation declared on the parser is the `--source` choices restriction,
and the `TypeError` of every run of `main()` propagates uncaught — the
run ends unsuccessfully after exactly the three events preceding the
raise, with nothing executed afterwards. -/
theorem C8_no_error_handling (args : Args) (env : String → Option String) :
    loadPathwaysAllKinds.contains StmtKind.tryK = false ∧
    loadPathwaysAllKinds.contains StmtKind.raiseK = false ∧
    loadPathwaysAllKinds.contains StmtKind.withK = false ∧
    loadPathwaysParserArgs.countP (fun a => a.choices.isSome) = 1 ∧
    (mainRun args env).2.isOk = false ∧
    (mainRun args env).1.length = 3 := by
  obtain ⟨s, o, l, u⟩ := args
  cases s <;> exact ⟨by decide, by decide, by decide, by decide, rfl, rfl⟩

/-- C9: `main()` aliases the organism per source: a `--organism` of
`human` becomes `hsa` for KEGG and `Homo sapiens` for Reactome and
WikiPathways, every other value is passed verbatim to all three loaders,
and the loader call in each source's run receives exactly the aliased
value. -/
theorem C9_organism_aliasing (o : String) (l : Option Int) (u : Bool)
    (env : String → Option String) :
    (keggOrganismArg "human" = "hsa" ∧ reactomeSpeciesArg "human" = "Homo sapiens" ∧
      wikiOrganismArg "human" = "Homo sapiens") ∧
    (o ≠ "human" → keggOrganismArg o = o ∧ reactomeSpeciesArg o = o ∧ wikiOrganismArg o = o) ∧
    Effect.call "load_kegg_pathways" [PyValue.str (keggOrganismArg o), limitVal l] ∈
      (mainRun (Args.mk SourceChoice.kegg o l u) env).1 ∧
    Effect.call "load_reactome_pathways" [PyValue.str (reactomeSpeciesArg o), limitVal l] ∈
      (mainRun (Args.mk SourceChoice.reactome o l u) env).1 ∧
    Effect.call "load_wikipathways" [PyValue.str (wikiOrganismArg o), limitVal l] ∈
      (mainRun (Args.mk SourceChoice.wiki o l u) env).1 := by
  refine ⟨⟨rfl, rfl, rfl⟩, ?_, ?_, ?_, ?_⟩
  · intro h
    exact ⟨by simp [keggOrganismArg, h], by simp [reactomeSpeciesArg, h],
      by simp [wikiOrganismArg, h]⟩
  all_goals exact List.mem_cons_of_mem _ (List.mem_cons_of_mem _ (List.mem_cons_self _ _))

/-- C9 witness: the aliasing theorem applied at the concrete organism
`mouse`, which is passed through verbatim by all three loaders. -/
theorem C9_organism_aliasing_witness :
    keggOrganismArg "mouse" = "mouse" ∧ reactomeSpeciesArg "mouse" = "mouse" ∧
      wikiOrganismArg "mouse" = "mouse" :=
  (C9_organism_aliasing "mouse" Option.none false (fun _ => Option.none)).2.1 (by decide)

/-- C10: the `--update` flag has no influence on behavior: two runs of
`main()` differing only in the flag produce identical traces and
identical results, for every source, organism, limit and environment. -/
theorem C10_update_flag_has_no_influence (s : SourceChoice) (o : String)
    (l : Option Int) (env : String → Option String) (u1 u2 : Bool) :
    mainRun (Args.mk s o l u1) env = mainRun (Args.mk s o l u2) env := rfl
